import Mathlib

/-!
# Verification of the YouTube Keybinds Spicetify extension

Shallow embedding of the two revisions of the extension found in the
repository:

* `youtubekeybinds.js` (header version 1.7.0): a single raw `keydown`
  listener that normalizes the key, applies modifier/popup and typing
  guards, dispatches to the Spicetify.Player API, and calls
  `event.preventDefault()` when it considers the key handled.
  Modelled below by `YTK.onKeydown` (and `YTK.handleVolumeChange`).

* the unnamed second revision (header version 2.0.0): a key map plus a
  `register` wrapper around `Spicetify.Keyboard.registerShortcut`; each
  registered callback applies a typing guard and a modifier guard before
  running its handler and then unconditionally calls
  `event.preventDefault()`.  Modelled below by `YTK.registeredCallback`,
  `YTK.runAction`, `YTK.changeVolume`, `YTK.keyMap`.

Host playback positions, durations and volumes are modelled as rationals
(JS numbers on the values the program manipulates behave exactly);
timestamps (`Date.now()`) are integers in milliseconds.  Host API calls
made by a handler are collected in a list of `HostCall`; the
`showNotification` best-effort UI facility is not a Player call and is
not observed by any property considered, so it is not recorded.
-/

namespace YTK

/-- A call into the host player API (`Spicetify.Player`). -/
inductive HostCall where
  | seek (pos : ℚ)
  | setVolume (v : ℚ)
  | togglePlay
  | toggleMute
  | next
  | back
deriving DecidableEq

/-- Playback state as read from the host (`getDuration()`, `getProgress()`,
`getVolume()`, each `|| 0`-defaulted in the source). -/
structure PlayerState where
  duration : ℚ
  progress : ℚ
  volume : ℚ
deriving DecidableEq

/-- The fields of the DOM `KeyboardEvent` the source inspects. -/
structure KeyEvent where
  key : String
  ctrlKey : Bool
  altKey : Bool
  metaKey : Bool
  shiftKey : Bool
deriving DecidableEq

/-- `SEEK_TIME_ARROW_MS` / `SEEK_SMALL_MS`: 5 s in milliseconds. -/
def SEEK_TIME_ARROW_MS : ℚ := 5000

/-- `SEEK_TIME_JL_MS` / `SEEK_BIG_MS`: 10 s in milliseconds. -/
def SEEK_TIME_JL_MS : ℚ := 10000

/-- `VOLUME_STEP`: 5% volume change. -/
def VOLUME_STEP : ℚ := 5 / 100

/-- `VOLUME_THROTTLE_MS`: minimal interval between volume commits. -/
def VOLUME_THROTTLE_MS : Int := 100

/-- Result of one dispatcher / registered-callback invocation: the host
player calls it made, whether it called `event.preventDefault()`, and the
value of the throttle timestamp afterwards. -/
structure DispatchResult where
  calls : List HostCall
  preventDefault : Bool
  lastTs : Int
deriving DecidableEq

/-- The new-volume expression shared verbatim by both revisions:
`Math.min(currentVolume + VOLUME_STEP, 1)` when increasing,
`Math.max(currentVolume - VOLUME_STEP, 0)` when decreasing. -/
def volStep (increase : Bool) (volume : ℚ) : ℚ :=
  if increase then min (volume + VOLUME_STEP) 1 else max (volume - VOLUME_STEP) 0

/-- v1 `handleVolumeChange(increase)`: commits a volume step only when
strictly more than `VOLUME_THROTTLE_MS` elapsed since the stored
timestamp, and only then updates the timestamp.  Returns the calls made
and the new `lastVolumeChangeTimestamp`. -/
def handleVolumeChange (increase : Bool) (volume : ℚ) (now lastVolumeChangeTimestamp : Int) :
    List HostCall × Int :=
  if now - lastVolumeChangeTimestamp > VOLUME_THROTTLE_MS then
    ([HostCall.setVolume (volStep increase volume)], now)
  else
    ([], lastVolumeChangeTimestamp)

/-- `/^[0-9]$/.test(key)`: the key string is a single decimal digit. -/
def isDigitKey (s : String) : Bool :=
  match s.data with
  | [c] => c.isDigit
  | _ => false

/-- `parseInt(key)` on a single-digit key string. -/
def digitVal (s : String) : Nat :=
  match s.data with
  | [c] => c.toNat - 48
  | _ => 0

/-- `event.key.toLowerCase()` (ASCII lowering is all the key names need). -/
def lowerKey (s : String) : String :=
  String.mk (s.data.map Char.toLower)

/-- v1 `keydown` listener of `youtubekeybinds.js`.  `isTyping` is the
focus-guard predicate on `document.activeElement`; `popupOpen` is
`Spicetify.PopupModal.isOpen()`.  `now` is `Date.now()` and
`lastVolumeChangeTimestamp` the stored throttle timestamp. -/
def onKeydown (event : KeyEvent) (isTyping popupOpen : Bool) (st : PlayerState)
    (now lastVolumeChangeTimestamp : Int) : DispatchResult :=
  let key := lowerKey event.key
  if event.ctrlKey || event.metaKey || event.altKey || popupOpen then
    ⟨[], false, lastVolumeChangeTimestamp⟩
  else if key = "arrowleft" then
    ⟨[HostCall.seek (max (st.progress - SEEK_TIME_ARROW_MS) 0)], true,
      lastVolumeChangeTimestamp⟩
  else if key = "arrowright" then
    ⟨[HostCall.seek (min (st.progress + SEEK_TIME_ARROW_MS) st.duration)], true,
      lastVolumeChangeTimestamp⟩
  else if key = "arrowup" then
    let r := handleVolumeChange true st.volume now lastVolumeChangeTimestamp
    ⟨r.1, true, r.2⟩
  else if key = "arrowdown" then
    let r := handleVolumeChange false st.volume now lastVolumeChangeTimestamp
    ⟨r.1, true, r.2⟩
  else if isTyping then
    ⟨[], false, lastVolumeChangeTimestamp⟩
  else if key = "j" then
    ⟨[HostCall.seek (max (st.progress - SEEK_TIME_JL_MS) 0)], true,
      lastVolumeChangeTimestamp⟩
  else if key = "l" then
    ⟨[HostCall.seek (min (st.progress + SEEK_TIME_JL_MS) st.duration)], true,
      lastVolumeChangeTimestamp⟩
  else if key = "k" then
    ⟨[HostCall.togglePlay], true, lastVolumeChangeTimestamp⟩
  else if key = "m" then
    ⟨[HostCall.toggleMute], true, lastVolumeChangeTimestamp⟩
  else if key = "n" then
    if event.shiftKey then ⟨[HostCall.next], true, lastVolumeChangeTimestamp⟩
    else ⟨[], false, lastVolumeChangeTimestamp⟩
  else if key = "p" then
    if event.shiftKey then ⟨[HostCall.back], true, lastVolumeChangeTimestamp⟩
    else ⟨[], false, lastVolumeChangeTimestamp⟩
  else if isDigitKey key then
    if st.duration > 0 then
      ⟨[HostCall.seek ((digitVal key : ℚ) / 10 * st.duration)], true,
        lastVolumeChangeTimestamp⟩
    else
      ⟨[], false, lastVolumeChangeTimestamp⟩
  else
    ⟨[], false, lastVolumeChangeTimestamp⟩

/-! ## The second revision (registerShortcut based) -/

/-- A `Spicetify.Keyboard` key descriptor: key label plus shift flag
(absent in the source literal means `false`). -/
structure KeyDef where
  key : String
  shift : Bool
deriving DecidableEq

/-- The logical actions of the v2 `keyMap` (digit jumps parametrised). -/
inductive Action where
  | seekBackSmall
  | seekForwardSmall
  | volumeUp
  | volumeDown
  | seekBackBig
  | seekForwardBig
  | togglePlay
  | toggleMute
  | nextTrack
  | prevTrack
  | jump (d : Fin 10)
deriving DecidableEq

/-- The single-character key string of a digit (the source literals
"0" … "9", and the `event.key` value of a digit keypress). -/
def digitKey : Fin 10 → String
  | 0 => "0"
  | 1 => "1"
  | 2 => "2"
  | 3 => "3"
  | 4 => "4"
  | 5 => "5"
  | 6 => "6"
  | 7 => "7"
  | 8 => "8"
  | 9 => "9"

/-- v2 `keyMap`: the key descriptor of each action (`jump d` is bound to
the digit character of `d`, i.e. the source literals "0" … "9"). -/
def keyMap : Action → KeyDef
  | .seekBackSmall => ⟨"left", false⟩
  | .seekForwardSmall => ⟨"right", false⟩
  | .volumeUp => ⟨"up", false⟩
  | .volumeDown => ⟨"down", false⟩
  | .seekBackBig => ⟨"j", false⟩
  | .seekForwardBig => ⟨"l", false⟩
  | .togglePlay => ⟨"k", false⟩
  | .toggleMute => ⟨"m", false⟩
  | .nextTrack => ⟨"n", true⟩
  | .prevTrack => ⟨"p", true⟩
  | .jump d => ⟨digitKey d, false⟩

/-- All actions registered by the v2 revision. -/
def allActions : List Action :=
  [.seekBackSmall, .seekForwardSmall, .volumeUp, .volumeDown, .seekBackBig,
    .seekForwardBig, .togglePlay, .toggleMute, .nextTrack, .prevTrack] ++
    (List.finRange 10).map .jump

/-- Modelled from the spec: the host shortcut-registration facility
(`Spicetify.Keyboard.registerShortcut`, external to the repository) fires
a registered callback exactly when the event's key matches the
descriptor's key label and the event's shift state equals the
descriptor's shift flag. -/
def matchesDef (d : KeyDef) (key : String) (shiftKey : Bool) : Bool :=
  d.key == key && d.shift == shiftKey

/-- The actions whose registered shortcut fires for a given key label and
shift state. -/
def actionsFor (key : String) (shiftKey : Bool) : List Action :=
  allActions.filter (fun a => matchesDef (keyMap a) key shiftKey)

/-- v2 `changeVolume(increase)`: returns (no-op) when strictly less than
`VOLUME_THROTTLE_MS` elapsed; otherwise records `now` and commits the
clamped step.  Returns the calls made and the new `lastVolChange`. -/
def changeVolume (increase : Bool) (volume : ℚ) (now lastVolChange : Int) :
    List HostCall × Int :=
  if now - lastVolChange < VOLUME_THROTTLE_MS then
    ([], lastVolChange)
  else
    ([HostCall.setVolume (volStep increase volume)], now)

/-- v2 `toggleMuteSafe`: native toggle when the host has one, otherwise a
volume-based fallback (snap to 0, or restore to 50%). -/
def toggleMuteSafe (hasToggleMute : Bool) (volume : ℚ) : List HostCall :=
  if hasToggleMute then
    [HostCall.toggleMute]
  else if volume > 0 then
    [HostCall.setVolume 0]
  else
    [HostCall.setVolume (1 / 2)]

/-- The body of each v2 registered handler: the host player calls it makes
and the resulting throttle timestamp. -/
def runAction (hasToggleMute : Bool) (a : Action) (st : PlayerState)
    (now lastVolChange : Int) : List HostCall × Int :=
  match a with
  | .seekBackSmall =>
      ([HostCall.seek (max (st.progress - SEEK_TIME_ARROW_MS) 0)], lastVolChange)
  | .seekForwardSmall =>
      ([HostCall.seek (min (st.progress + SEEK_TIME_ARROW_MS) st.duration)], lastVolChange)
  | .volumeUp => changeVolume true st.volume now lastVolChange
  | .volumeDown => changeVolume false st.volume now lastVolChange
  | .seekBackBig =>
      ([HostCall.seek (max (st.progress - SEEK_TIME_JL_MS) 0)], lastVolChange)
  | .seekForwardBig =>
      ([HostCall.seek (min (st.progress + SEEK_TIME_JL_MS) st.duration)], lastVolChange)
  | .togglePlay => ([HostCall.togglePlay], lastVolChange)
  | .toggleMute => (toggleMuteSafe hasToggleMute st.volume, lastVolChange)
  | .nextTrack => ([HostCall.next], lastVolChange)
  | .prevTrack => ([HostCall.back], lastVolChange)
  | .jump d =>
      (if st.duration > 0 then
        [HostCall.seek ((d.val : ℚ) / 10 * st.duration)]
      else [], lastVolChange)

/-- The v2 `register` wrapper around a handler: blocks when typing (every
registration uses the default `allowWhileTyping = false`), blocks on
Ctrl/Alt/Meta, otherwise runs the handler and then unconditionally calls
`event.preventDefault()`. -/
def registeredCallback (allowWhileTyping : Bool) (a : Action) (event : KeyEvent)
    (isTyping hasToggleMute : Bool) (st : PlayerState) (now lastVolChange : Int) :
    DispatchResult :=
  if !allowWhileTyping && isTyping then
    ⟨[], false, lastVolChange⟩
  else if event.ctrlKey || event.altKey || event.metaKey then
    ⟨[], false, lastVolChange⟩
  else
    let r := runAction hasToggleMute a st now lastVolChange
    ⟨r.1, true, r.2⟩

/-- The spec's clamp to an interval: `clamp lo hi x = min (max x lo) hi`. -/
def clamp (lo hi x : ℚ) : ℚ :=
  min (max x lo) hi

/-- A keyboard event with no modifier held. -/
def mkEvent (k : String) : KeyEvent :=
  ⟨k, false, false, false, false⟩

/-- A keyboard event with only Shift held. -/
def mkShiftEvent (k : String) : KeyEvent :=
  ⟨k, false, false, false, true⟩

end YTK

namespace YTK

/-! ## Helper lemmas -/

/-- Evaluated facts about the digit key strings: lowercasing fixes them,
the digit regex accepts them, `parseInt` recovers the digit, and they are
distinct from every named key of the v1 dispatcher. -/
lemma digitKey_facts : ∀ d : Fin 10,
    lowerKey (digitKey d) = digitKey d ∧ isDigitKey (digitKey d) = true ∧
    digitVal (digitKey d) = d.val ∧
    digitKey d ≠ "arrowleft" ∧ digitKey d ≠ "arrowright" ∧
    digitKey d ≠ "arrowup" ∧ digitKey d ≠ "arrowdown" ∧
    digitKey d ≠ "j" ∧ digitKey d ≠ "l" ∧ digitKey d ≠ "k" ∧
    digitKey d ≠ "m" ∧ digitKey d ≠ "n" ∧ digitKey d ≠ "p" := by
  decide

/-- `clamp` stays inside the interval. -/
lemma clamp_mem (lo hi x : ℚ) (h : lo ≤ hi) :
    lo ≤ clamp lo hi x ∧ clamp lo hi x ≤ hi := by
  unfold clamp
  constructor
  · exact le_min (le_max_right x lo) h
  · exact min_le_right _ _

/-- One-sided lower clamping agrees with full clamping when the input
cannot exceed the upper bound. -/
lemma clamp_eq_max (lo hi x : ℚ) (h : max x lo ≤ hi) :
    clamp lo hi x = max x lo :=
  min_eq_left h

/-- One-sided upper clamping agrees with full clamping when the input
cannot drop below the lower bound. -/
lemma clamp_eq_min (lo hi x : ℚ) (h : lo ≤ x) :
    clamp lo hi x = min x hi := by
  unfold clamp
  rw [max_eq_left h]

/-! ## Claims -/

/-- C10: while a Spicetify popup/modal is open, the v1 keydown listener
aborts before any guard or handler runs: for every key event, typing
state and player state, no host call is made, `preventDefault` is not
called and the throttle timestamp is untouched. -/
theorem C10_popup_open_aborts (event : KeyEvent) (isTyping : Bool)
    (st : PlayerState) (now last : Int) :
    onKeydown event isTyping true st now last = ⟨[], false, last⟩ := by
  unfold onKeydown
  simp

/-- C6: a keydown carrying Ctrl, Alt or Meta makes no host API call and
does not suppress the default action, whichever key it carries: the v1
listener returns immediately, and every v2 registered callback returns
before running its handler. -/
theorem C6_modifiers_abort (event : KeyEvent)
    (isTyping popupOpen hasToggleMute : Bool) (a : Action)
    (st : PlayerState) (now last : Int)
    (h : event.ctrlKey = true ∨ event.altKey = true ∨ event.metaKey = true) :
    onKeydown event isTyping popupOpen st now last = ⟨[], false, last⟩ ∧
    registeredCallback false a event isTyping hasToggleMute st now last =
      ⟨[], false, last⟩ := by
  constructor
  · unfold onKeydown
    rcases h with h | h | h <;> simp [h]
  · unfold registeredCallback
    rcases h with h | h | h <;> by_cases ht : isTyping <;> simp [h, ht]

/-- Witness for C6 at a concrete input (Ctrl+K). -/
theorem C6_modifiers_abort_witness :
    onKeydown ⟨"k", true, false, false, false⟩ false false ⟨1000, 0, 0⟩ 0 0 =
      ⟨[], false, 0⟩ ∧
    registeredCallback false Action.togglePlay ⟨"k", true, false, false, false⟩
      false false ⟨1000, 0, 0⟩ 0 0 = ⟨[], false, 0⟩ :=
  C6_modifiers_abort ⟨"k", true, false, false, false⟩ false false false
    Action.togglePlay ⟨1000, 0, 0⟩ 0 0 (Or.inl rfl)

/-- C9 counterexample: a throttled volume-change attempt does NOT write
the throttle timestamp.  At `now = 50` with stored timestamp `0`, both
revisions leave the timestamp at `0 ≠ 50` (and commit nothing). -/
theorem C9_counterexample :
    (handleVolumeChange true (1 / 2) 50 0).2 = 0 ∧
    (changeVolume true (1 / 2) 50 0).2 = 0 ∧
    (handleVolumeChange true (1 / 2) 50 0).1 = [] ∧
    (changeVolume true (1 / 2) 50 0).1 = [] ∧ (0 : Int) ≠ 50 := by
  decide

/-- C9 (amended): the throttle timestamp is written (to the current
time) exactly by the attempts that commit a volume change; throttled
attempts leave it unchanged.  In both revisions the attempt commits a
`setVolume` call if and only if it records the timestamp. -/
theorem C9_amended_timestamp (increase : Bool) (volume : ℚ) (now last : Int) :
    ((handleVolumeChange increase volume now last).2 =
      if now - last > VOLUME_THROTTLE_MS then now else last) ∧
    ((changeVolume increase volume now last).2 =
      if now - last < VOLUME_THROTTLE_MS then last else now) ∧
    ((handleVolumeChange increase volume now last).1 = [] ↔
      ¬ now - last > VOLUME_THROTTLE_MS) ∧
    ((changeVolume increase volume now last).1 = [] ↔
      now - last < VOLUME_THROTTLE_MS) := by
  unfold handleVolumeChange changeVolume
  refine ⟨?_, ?_, ?_, ?_⟩ <;> split <;> simp_all

/-- C4 counterexample: in the v1 keydown-listener revision, a
volume-change attempt exactly 100 ms after the last committed change (a
spacing of at least 100 ms) commits nothing, because `handleVolumeChange`
requires strictly more than `VOLUME_THROTTLE_MS` elapsed. -/
theorem C4_counterexample :
    (100 : Int) - 0 ≥ VOLUME_THROTTLE_MS ∧
    (handleVolumeChange true (1 / 2) 100 0).1 = [] := by
  decide

/-- C4 (amended): an attempt commits exactly when strictly more than
100 ms elapsed since the stored timestamp in the v1 revision, and exactly
when at least 100 ms elapsed in the v2 revision; in both revisions an
attempt less than 100 ms after the last committed change commits no
`setVolume` call, and any two attempts within (less than) 100 ms of each
other produce at most one committed change. -/
theorem C4_amended_throttle (i1 i2 : Bool) (v v1 v2 : ℚ) (now last t1 t2 l : Int) :
    (handleVolumeChange i1 v now last =
      if now - last > VOLUME_THROTTLE_MS then
        ([HostCall.setVolume (volStep i1 v)], now)
      else ([], last)) ∧
    (changeVolume i1 v now last =
      if now - last < VOLUME_THROTTLE_MS then ([], last)
      else ([HostCall.setVolume (volStep i1 v)], now)) ∧
    (t2 - t1 < VOLUME_THROTTLE_MS →
      (handleVolumeChange i1 v1 t1 l).1.length +
        (handleVolumeChange i2 v2 t2 (handleVolumeChange i1 v1 t1 l).2).1.length ≤ 1 ∧
      (changeVolume i1 v1 t1 l).1.length +
        (changeVolume i2 v2 t2 (changeVolume i1 v1 t1 l).2).1.length ≤ 1) := by
  refine ⟨?_, ?_, fun hgap => ⟨?_, ?_⟩⟩
  · unfold handleVolumeChange
    split <;> simp
  · unfold changeVolume
    split <;> simp
  · unfold handleVolumeChange
    by_cases h1 : t1 - l > VOLUME_THROTTLE_MS <;> simp [h1]
    · rw [if_neg (by omega)]
    · split <;> simp
  · unfold changeVolume
    by_cases h1 : t1 - l < VOLUME_THROTTLE_MS <;> simp [h1]
    · split <;> simp
    · rw [if_pos hgap]

/-- Witness for C4 (amended) at concrete inputs: two attempts 50 ms
apart, starting far past the throttle window, commit at most once in
each revision. -/
theorem C4_amended_throttle_witness :
    (handleVolumeChange true (1 / 2) 0 (-500)).1.length +
      (handleVolumeChange false (3 / 4) 50
        (handleVolumeChange true (1 / 2) 0 (-500)).2).1.length ≤ 1 ∧
    (changeVolume true (1 / 2) 0 (-500)).1.length +
      (changeVolume false (3 / 4) 50
        (changeVolume true (1 / 2) 0 (-500)).2).1.length ≤ 1 :=
  (C4_amended_throttle true false (1 / 2) (1 / 2) (3 / 4) 0 0 0 50 (-500)).2.2
    (by decide)

/-- C8: when the host-reported volume lies in [0, 1], a committed volume
change passes to `setVolume` exactly the current volume plus (up) or
minus (down) `VOLUME_STEP`, clamped to [0, 1]; in particular the
committed value stays in [0, 1].  Holds for both revisions. -/
theorem C8_volume_step_clamped (increase : Bool) (v : ℚ) (now last : Int)
    (h0 : 0 ≤ v) (h1 : v ≤ 1) :
    volStep increase v =
      clamp 0 1 (if increase then v + VOLUME_STEP else v - VOLUME_STEP) ∧
    0 ≤ volStep increase v ∧ volStep increase v ≤ 1 ∧
    (now - last > VOLUME_THROTTLE_MS →
      (handleVolumeChange increase v now last).1 =
        [HostCall.setVolume (volStep increase v)]) ∧
    (now - last ≥ VOLUME_THROTTLE_MS →
      (changeVolume increase v now last).1 =
        [HostCall.setVolume (volStep increase v)]) := by
  have hs : VOLUME_STEP = 5 / 100 := rfl
  have hstep : volStep increase v =
      clamp 0 1 (if increase then v + VOLUME_STEP else v - VOLUME_STEP) := by
    cases increase <;> simp only [volStep, if_true, if_false, Bool.false_eq_true,
      Bool.true_eq_false, ite_true, ite_false]
    · rw [clamp_eq_max _ _ _ (max_le (by rw [hs]; linarith) (by norm_num))]
    · rw [clamp_eq_min _ _ _ (by rw [hs]; linarith)]
  refine ⟨hstep, ?_, ?_, ?_, ?_⟩
  · rw [hstep]
    exact (clamp_mem 0 1 _ (by norm_num)).1
  · rw [hstep]
    exact (clamp_mem 0 1 _ (by norm_num)).2
  · intro h
    unfold handleVolumeChange
    rw [if_pos h]
  · intro h
    unfold changeVolume
    rw [if_neg (not_lt.mpr h)]

/-- Witness for C8 at volume 1/2 with the throttle window open. -/
theorem C8_volume_step_clamped_witness :
    volStep true (1 / 2) = clamp 0 1 ((1 : ℚ) / 2 + VOLUME_STEP) ∧
    (handleVolumeChange true (1 / 2) 200 0).1 =
      [HostCall.setVolume (volStep true (1 / 2))] ∧
    (changeVolume true (1 / 2) 200 0).1 =
      [HostCall.setVolume (volStep true (1 / 2))] := by
  obtain ⟨a, b, c, d, e⟩ :=
    C8_volume_step_clamped true (1 / 2) 200 0 (by norm_num) (by norm_num)
  exact ⟨by simpa using a, d (by decide), e (by decide)⟩

/-- C1 counterexample: the arrow seek is clamped on one side only.  With
host-reported progress 20000 ms and duration 1000 ms, the v1 listener
passes 15000 ms to `seek` on ArrowLeft, which differs from
`clamp(progress - 5000, 0, D) = 1000` and lies outside [0, D]. -/
theorem C1_counterexample :
    (onKeydown (mkEvent "ArrowLeft") false false ⟨1000, 20000, 0⟩ 0 0).calls =
      [HostCall.seek 15000] ∧
    clamp 0 1000 (20000 - SEEK_TIME_ARROW_MS) = 1000 ∧
    ¬ (15000 : ℚ) ≤ 1000 := by
  refine ⟨?_, ?_, by norm_num⟩
  · simp [onKeydown, mkEvent, (by decide : lowerKey "ArrowLeft" = "arrowleft")]
    norm_num [SEEK_TIME_ARROW_MS, max_def]
  · norm_num [clamp, SEEK_TIME_ARROW_MS, max_def, min_def]

/-- C1 (amended): provided the host-reported progress lies in
[0, duration], every time-seek dispatch (ArrowLeft/ArrowRight with a
5000 ms delta, J/L with a 10000 ms delta, in both revisions) passes to
`seek` exactly `clamp(progress ± delta, 0, duration)`, a value never
outside [0, duration]. -/
theorem C1_seek_clamped (st : PlayerState) (isTyping hasToggleMute : Bool)
    (now last : Int) (h0 : 0 ≤ st.progress) (hD : st.progress ≤ st.duration) :
    (onKeydown (mkEvent "ArrowLeft") isTyping false st now last).calls =
      [HostCall.seek (clamp 0 st.duration (st.progress - SEEK_TIME_ARROW_MS))] ∧
    (onKeydown (mkEvent "ArrowRight") isTyping false st now last).calls =
      [HostCall.seek (clamp 0 st.duration (st.progress + SEEK_TIME_ARROW_MS))] ∧
    (onKeydown (mkEvent "j") false false st now last).calls =
      [HostCall.seek (clamp 0 st.duration (st.progress - SEEK_TIME_JL_MS))] ∧
    (onKeydown (mkEvent "l") false false st now last).calls =
      [HostCall.seek (clamp 0 st.duration (st.progress + SEEK_TIME_JL_MS))] ∧
    (runAction hasToggleMute Action.seekBackSmall st now last).1 =
      [HostCall.seek (clamp 0 st.duration (st.progress - SEEK_TIME_ARROW_MS))] ∧
    (runAction hasToggleMute Action.seekForwardSmall st now last).1 =
      [HostCall.seek (clamp 0 st.duration (st.progress + SEEK_TIME_ARROW_MS))] ∧
    (runAction hasToggleMute Action.seekBackBig st now last).1 =
      [HostCall.seek (clamp 0 st.duration (st.progress - SEEK_TIME_JL_MS))] ∧
    (runAction hasToggleMute Action.seekForwardBig st now last).1 =
      [HostCall.seek (clamp 0 st.duration (st.progress + SEEK_TIME_JL_MS))] ∧
    (∀ x : ℚ, 0 ≤ clamp 0 st.duration x ∧ clamp 0 st.duration x ≤ st.duration) := by
  have hD0 : (0 : ℚ) ≤ st.duration := le_trans h0 hD
  have hsa : SEEK_TIME_ARROW_MS = 5000 := rfl
  have hsj : SEEK_TIME_JL_MS = 10000 := rfl
  have hal : clamp 0 st.duration (st.progress - SEEK_TIME_ARROW_MS) =
      max (st.progress - SEEK_TIME_ARROW_MS) 0 :=
    clamp_eq_max _ _ _ (max_le (by rw [hsa]; linarith) hD0)
  have har : clamp 0 st.duration (st.progress + SEEK_TIME_ARROW_MS) =
      min (st.progress + SEEK_TIME_ARROW_MS) st.duration :=
    clamp_eq_min _ _ _ (by rw [hsa]; linarith)
  have hjl : clamp 0 st.duration (st.progress - SEEK_TIME_JL_MS) =
      max (st.progress - SEEK_TIME_JL_MS) 0 :=
    clamp_eq_max _ _ _ (max_le (by rw [hsj]; linarith) hD0)
  have hjr : clamp 0 st.duration (st.progress + SEEK_TIME_JL_MS) =
      min (st.progress + SEEK_TIME_JL_MS) st.duration :=
    clamp_eq_min _ _ _ (by rw [hsj]; linarith)
  refine ⟨?_, ?_, ?_, ?_, ?_, ?_, ?_, ?_, fun x => clamp_mem 0 st.duration x hD0⟩
  · simp [onKeydown, mkEvent, (by decide : lowerKey "ArrowLeft" = "arrowleft"), hal]
  · simp [onKeydown, mkEvent, (by decide : lowerKey "ArrowRight" = "arrowright"), har]
  · simp [onKeydown, mkEvent, (by decide : lowerKey "j" = "j"), hjl]
  · simp [onKeydown, mkEvent, (by decide : lowerKey "l" = "l"), hjr]
  · simp [runAction, hal]
  · simp [runAction, har]
  · simp [runAction, hjl]
  · simp [runAction, hjr]

/-- Witness for C1 (amended) at progress 500 ms of a 1000 ms track. -/
theorem C1_seek_clamped_witness :
    (onKeydown (mkEvent "ArrowLeft") false false ⟨1000, 500, 0⟩ 0 0).calls =
      [HostCall.seek (clamp 0 1000 (500 - SEEK_TIME_ARROW_MS))] ∧
    (runAction false Action.seekForwardSmall ⟨1000, 500, 0⟩ 0 0).1 =
      [HostCall.seek (clamp 0 1000 (500 + SEEK_TIME_ARROW_MS))] := by
  obtain ⟨a, b, c, d, e, f, g, h, i⟩ :=
    C1_seek_clamped ⟨1000, 500, 0⟩ false false 0 0 (by norm_num) (by norm_num)
  exact ⟨a, f⟩

/-- C5: outside a typing context with duration D > 0, the digit d seeks
to exactly (d/10)·D in both revisions, and this target is strictly
monotone in the digit. -/
theorem C5_digit_jump (d : Fin 10) (st : PlayerState) (now last : Int)
    (hasToggleMute : Bool) (hD : 0 < st.duration) :
    (onKeydown (mkEvent (digitKey d)) false false st now last).calls =
      [HostCall.seek ((d.val : ℚ) / 10 * st.duration)] ∧
    (registeredCallback false (Action.jump d) (mkEvent (digitKey d)) false
        hasToggleMute st now last).calls =
      [HostCall.seek ((d.val : ℚ) / 10 * st.duration)] ∧
    ∀ e : Fin 10, d < e →
      (d.val : ℚ) / 10 * st.duration < (e.val : ℚ) / 10 * st.duration := by
  obtain ⟨h1, h2, h3, h4, h5, h6, h7, h8, h9, h10, h11, h12, h13⟩ := digitKey_facts d
  refine ⟨?_, ?_, ?_⟩
  · simp [onKeydown, mkEvent, h1, h2, h3, h4, h5, h6, h7, h8, h9, h10, h11, h12,
      h13, hD]
  · simp [registeredCallback, runAction, mkEvent, hD]
  · intro e he
    have hv : d.val < e.val := he
    have hde : (d.val : ℚ) < (e.val : ℚ) := by exact_mod_cast hv
    have h10 : (d.val : ℚ) / 10 < (e.val : ℚ) / 10 := by linarith
    exact mul_lt_mul_of_pos_right h10 hD

/-- Witness for C5: digit 3 on a 1000 ms track, compared against digit 5. -/
theorem C5_digit_jump_witness :
    (onKeydown (mkEvent (digitKey 3)) false false ⟨1000, 0, 0⟩ 0 0).calls =
      [HostCall.seek (((3 : Fin 10).val : ℚ) / 10 * 1000)] ∧
    ((3 : Fin 10).val : ℚ) / 10 * 1000 < ((5 : Fin 10).val : ℚ) / 10 * 1000 := by
  obtain ⟨a, b, c⟩ := C5_digit_jump 3 ⟨1000, 0, 0⟩ 0 0 false (by norm_num)
  exact ⟨a, c 5 (by decide)⟩

/-- C7: outside a typing context, Shift+N makes exactly one `next()`
call and is handled, Shift+P exactly one `back()` call; bare N / P make
no host call and stay unhandled.  In the v2 revision the only shortcut
bound to the key "n" requires shift (and likewise "p"), so a bare press
fires no callback at all. -/
theorem C7_track_navigation (st : PlayerState) (now last : Int)
    (hasToggleMute : Bool) :
    onKeydown (mkShiftEvent "N") false false st now last =
      ⟨[HostCall.next], true, last⟩ ∧
    onKeydown (mkEvent "n") false false st now last = ⟨[], false, last⟩ ∧
    onKeydown (mkShiftEvent "P") false false st now last =
      ⟨[HostCall.back], true, last⟩ ∧
    onKeydown (mkEvent "p") false false st now last = ⟨[], false, last⟩ ∧
    actionsFor "n" true = [Action.nextTrack] ∧
    actionsFor "n" false = [] ∧
    actionsFor "p" true = [Action.prevTrack] ∧
    actionsFor "p" false = [] ∧
    registeredCallback false Action.nextTrack (mkShiftEvent "N") false
      hasToggleMute st now last = ⟨[HostCall.next], true, last⟩ ∧
    registeredCallback false Action.prevTrack (mkShiftEvent "P") false
      hasToggleMute st now last = ⟨[HostCall.back], true, last⟩ := by
  refine ⟨?_, ?_, ?_, ?_, by decide, by decide, by decide, by decide, ?_, ?_⟩
  · simp [onKeydown, mkShiftEvent, (by decide : lowerKey "N" = "n")]
  · simp [onKeydown, mkEvent, (by decide : lowerKey "n" = "n")]
  · simp [onKeydown, mkShiftEvent, (by decide : lowerKey "P" = "p")]
  · simp [onKeydown, mkEvent, (by decide : lowerKey "p" = "p")]
  · simp [registeredCallback, runAction, mkShiftEvent]
  · simp [registeredCallback, runAction, mkShiftEvent]

/-- C2 counterexample: in the v2 revision, a digit pressed outside a
typing context while duration is 0 makes no seek call but IS treated as
handled: the wrapper unconditionally calls `event.preventDefault()`
after the (no-op) jump handler, contradicting the claimed UNHANDLED
status. -/
theorem C2_counterexample :
    (registeredCallback false (Action.jump 5) (mkEvent "5") false false
      ⟨0, 0, 0⟩ 0 0).calls = [] ∧
    (registeredCallback false (Action.jump 5) (mkEvent "5") false false
      ⟨0, 0, 0⟩ 0 0).preventDefault = true := by
  constructor
  · simp [registeredCallback, runAction, mkEvent]
  · simp [registeredCallback, mkEvent]

/-- C2 (amended): with duration 0, a digit key makes no host seek call
in either revision; the v1 listener reports it UNHANDLED (no
`preventDefault`, so the digit still types), while the v2 wrapper still
suppresses the default action unless a typing context blocked it. -/
theorem C2_amended_duration_zero (d : Fin 10) (shift isTyping hasToggleMute : Bool)
    (st : PlayerState) (now last : Int) (hdur : st.duration = 0) :
    onKeydown ⟨digitKey d, false, false, false, shift⟩ isTyping false st now last =
      ⟨[], false, last⟩ ∧
    registeredCallback false (Action.jump d) ⟨digitKey d, false, false, false, shift⟩
      isTyping hasToggleMute st now last = ⟨[], !isTyping, last⟩ := by
  obtain ⟨h1, h2, h3, h4, h5, h6, h7, h8, h9, h10, h11, h12, h13⟩ := digitKey_facts d
  constructor
  · by_cases ht : isTyping <;>
      simp [onKeydown, h1, h2, h3, h4, h5, h6, h7, h8, h9, h10, h11, h12, h13,
        ht, hdur]
  · by_cases ht : isTyping <;> simp [registeredCallback, runAction, ht, hdur]

/-- Witness for C2 (amended): digit 7 with no track loaded. -/
theorem C2_amended_duration_zero_witness :
    onKeydown ⟨digitKey 7, false, false, false, false⟩ false false ⟨0, 5000, 0⟩ 0 0 =
      ⟨[], false, 0⟩ ∧
    registeredCallback false (Action.jump 7) ⟨digitKey 7, false, false, false, false⟩
      false false ⟨0, 5000, 0⟩ 0 0 = ⟨[], true, 0⟩ :=
  C2_amended_duration_zero 7 false false false ⟨0, 5000, 0⟩ 0 0 rfl

/-- C3 counterexample: in the v2 revision an arrow-key shortcut fired
while the user is typing makes NO host call (the registered callback
returns at the typing guard), contradicting the claim that arrow keys
still produce their host API calls in a typing context. -/
theorem C3_counterexample :
    registeredCallback false Action.seekBackSmall (mkEvent "left") true false
      ⟨200000, 60000, 1 / 2⟩ 0 0 = ⟨[], false, 0⟩ := by
  simp [registeredCallback]

/-- C3 (amended): in the v1 listener, while typing, K/M/J/L, all digits
and Shift+N/P make no host call and stay unhandled, while
ArrowLeft/ArrowRight still seek and ArrowUp/ArrowDown behave exactly as
outside a typing context (committing a volume step whenever the
throttle window is open); in the v2 revision every registered shortcut,
arrows included, is blocked while typing. -/
theorem C3_amended_typing_guard (st : PlayerState) (now last : Int)
    (hasToggleMute : Bool) (event : KeyEvent) :
    onKeydown (mkEvent "k") true false st now last = ⟨[], false, last⟩ ∧
    onKeydown (mkEvent "m") true false st now last = ⟨[], false, last⟩ ∧
    onKeydown (mkEvent "j") true false st now last = ⟨[], false, last⟩ ∧
    onKeydown (mkEvent "l") true false st now last = ⟨[], false, last⟩ ∧
    (∀ d : Fin 10,
      onKeydown (mkEvent (digitKey d)) true false st now last = ⟨[], false, last⟩) ∧
    onKeydown (mkShiftEvent "N") true false st now last = ⟨[], false, last⟩ ∧
    onKeydown (mkShiftEvent "P") true false st now last = ⟨[], false, last⟩ ∧
    (onKeydown (mkEvent "ArrowLeft") true false st now last).calls =
      [HostCall.seek (max (st.progress - SEEK_TIME_ARROW_MS) 0)] ∧
    (onKeydown (mkEvent "ArrowRight") true false st now last).calls =
      [HostCall.seek (min (st.progress + SEEK_TIME_ARROW_MS) st.duration)] ∧
    onKeydown (mkEvent "ArrowUp") true false st now last =
      onKeydown (mkEvent "ArrowUp") false false st now last ∧
    onKeydown (mkEvent "ArrowDown") true false st now last =
      onKeydown (mkEvent "ArrowDown") false false st now last ∧
    (now - last > VOLUME_THROTTLE_MS →
      (onKeydown (mkEvent "ArrowUp") true false st now last).calls =
        [HostCall.setVolume (volStep true st.volume)]) ∧
    (∀ a : Action, registeredCallback false a event true hasToggleMute st now last =
      ⟨[], false, last⟩) := by
  refine ⟨?_, ?_, ?_, ?_, ?_, ?_, ?_, ?_, ?_, ?_, ?_, ?_, ?_⟩
  · simp [onKeydown, mkEvent, (by decide : lowerKey "k" = "k")]
  · simp [onKeydown, mkEvent, (by decide : lowerKey "m" = "m")]
  · simp [onKeydown, mkEvent, (by decide : lowerKey "j" = "j")]
  · simp [onKeydown, mkEvent, (by decide : lowerKey "l" = "l")]
  · intro d
    obtain ⟨h1, h2, h3, h4, h5, h6, h7, h8, h9, h10, h11, h12, h13⟩ := digitKey_facts d
    simp [onKeydown, mkEvent, h1, h4, h5, h6, h7]
  · simp [onKeydown, mkShiftEvent, (by decide : lowerKey "N" = "n")]
  · simp [onKeydown, mkShiftEvent, (by decide : lowerKey "P" = "p")]
  · simp [onKeydown, mkEvent, (by decide : lowerKey "ArrowLeft" = "arrowleft")]
  · simp [onKeydown, mkEvent, (by decide : lowerKey "ArrowRight" = "arrowright")]
  · simp [onKeydown, mkEvent, (by decide : lowerKey "ArrowUp" = "arrowup")]
  · simp [onKeydown, mkEvent, (by decide : lowerKey "ArrowDown" = "arrowdown")]
  · intro h
    simp [onKeydown, mkEvent, (by decide : lowerKey "ArrowUp" = "arrowup"),
      handleVolumeChange, h]
  · intro a
    simp [registeredCallback]

/-- Witness for C3 (amended) at a concrete state with the throttle
window open. -/
theorem C3_amended_typing_guard_witness :
    onKeydown (mkEvent "k") true false ⟨1000, 500, 1 / 2⟩ 200 0 = ⟨[], false, 0⟩ ∧
    (onKeydown (mkEvent "ArrowUp") true false ⟨1000, 500, 1 / 2⟩ 200 0).calls =
      [HostCall.setVolume (volStep true (1 / 2))] ∧
    registeredCallback false Action.seekBackSmall (mkEvent "left") true false
      ⟨1000, 500, 1 / 2⟩ 200 0 = ⟨[], false, 0⟩ := by
  obtain ⟨a, b, c, d, e, f, g, h, i, j, k, l, m⟩ :=
    C3_amended_typing_guard ⟨1000, 500, 1 / 2⟩ 200 0 false (mkEvent "left")
  exact ⟨a, l (by decide), m Action.seekBackSmall⟩

end YTK
